import Mathlib

/-!
Shallow embedding of the notificator relay (src/hooker.py) and proofs about
its request-admission and delivery pipeline: per-client rate limiting,
API-key authentication, payload validation, persistence and best-effort
Telegram forwarding with retry/backoff.

Modelling conventions:
* wall-clock instants (Python `time.time()` / `datetime.now`) are rationals;
* Python strings are lists of characters;
* JSON payloads are a small inductive `Json` type, objects as association
  lists with first-match lookup (Python dicts have unique keys, so the
  first match is the only match);
* the fixed error-message strings returned by the validator and the
  handler are modelled as enumerations, one constructor per distinct
  message of the source.
-/

set_option autoImplicit false

namespace Hooker

/-! ### Configuration constants (src/hooker.py lines 40-47, default values) -/

def MAX_MESSAGE_LENGTH : Nat := 4096

def MAX_SERVICE_LENGTH : Nat := 100

def MAX_EVENT_LENGTH : Nat := 100

def MAX_FIELD_LENGTH : Nat := 1000

def RATE_LIMIT_REQUESTS : Nat := 10

def RATE_LIMIT_WINDOW : ℚ := 60

/-! ### Rate limiter (src/hooker.py, check_rate_limit, lines 58-80)

The global `rate_limit_store` maps an IP to a list of request instants; the
claims are all per-client, so the state carried here is a single client
entry.  `prune` is the list comprehension of line 70: keep an instant
`req_time` iff `now - req_time < RATE_LIMIT_WINDOW`. -/

def prune (store : List ℚ) (now : ℚ) : List ℚ :=
  store.filter (fun t => now - t < RATE_LIMIT_WINDOW)

/-- `check_rate_limit` returns the admission verdict together with the
updated per-client store (the Python function mutates the global map). -/
def check_rate_limit (store : List ℚ) (now : ℚ) : Bool × List ℚ :=
  let kept := prune store now
  if RATE_LIMIT_REQUESTS ≤ kept.length then (false, kept)
  else (true, kept ++ [now])

/-- Repeated calls of `check_rate_limit` by one client at the given instants:
the list of verdicts and the final store. -/
def runRateLimiter : List ℚ → List ℚ → List Bool × List ℚ
  | store, [] => ([], store)
  | store, t :: ts =>
    let c := check_rate_limit store t
    let r := runRateLimiter c.2 ts
    (c.1 :: r.1, r.2)

/-! ### JSON values and the validator (src/hooker.py, validate_notification_data, lines 170-209) -/

inductive Json where
  | str (s : List Char)
  | bool (b : Bool)
  | num (n : Int)
  | obj (fields : List (String × Json))
  | arr (elems : List Json)
  | null

/-- `isinstance(x, str)` on an optional field value. -/
def isStr : Option Json → Bool
  | some (.str _) => true
  | _ => false

/-- `isinstance(x, bool)` on an optional field value. -/
def isBool : Option Json → Bool
  | some (.bool _) => true
  | _ => false

/-- `len(data.get(k, ""))`: length when the value is a string, else the
length of the default empty string.  The validator only reaches the length
checks after the type checks, so the fallback branch is never the one that
decides. -/
def optStrLen : Option Json → Nat
  | some (.str s) => s.length
  | _ => 0

/-- One constructor per distinct error message of
`validate_notification_data`. -/
inductive VError where
  | notObject        -- "Data must be a JSON object"
  | missingRequired  -- missing required fields service and message
  | serviceNotString -- field service must be a string
  | serviceTooLong   -- field service exceeds maximum length of 100
  | eventNotString   -- field event must be a string
  | eventTooLong     -- field event exceeds maximum length of 100
  | messageNotString -- field message must be a string
  | messageTooLong   -- field message exceeds maximum length of 1000
  | errorNotBool     -- field error must be a boolean
deriving DecidableEq

/-- Direct translation of `validate_notification_data` (lines 170-209):
the chain of early returns, in source order. -/
def validate_notification_data (data : Json) : Bool × Option VError :=
  match data with
  | .obj d =>
    if (d.lookup "service").isNone || (d.lookup "message").isNone then
      (false, some .missingRequired)
    else if !(isStr (d.lookup "service")) then
      (false, some .serviceNotString)
    else if decide (MAX_SERVICE_LENGTH < optStrLen (d.lookup "service")) then
      (false, some .serviceTooLong)
    else if (d.lookup "event").isSome && !(isStr (d.lookup "event")) then
      (false, some .eventNotString)
    else if (d.lookup "event").isSome && decide (MAX_EVENT_LENGTH < optStrLen (d.lookup "event")) then
      (false, some .eventTooLong)
    else if !(isStr (d.lookup "message")) then
      (false, some .messageNotString)
    else if decide (MAX_FIELD_LENGTH < optStrLen (d.lookup "message")) then
      (false, some .messageTooLong)
    else if (d.lookup "error").isSome && !(isBool (d.lookup "error")) then
      (false, some .errorNotBool)
    else (true, none)
  | _ => (false, some .notObject)

/-- Spec-style reading of the rule list: an ordered list of
(failure condition, error) pairs; the first failing rule wins. -/
def firstFailure : List (Bool × VError) → Bool × Option VError
  | [] => (true, none)
  | (bad, e) :: rest => if bad then (false, some e) else firstFailure rest

/-- The ordered failure conditions the source checks on a JSON object,
one pair per early return. -/
def specRules (d : List (String × Json)) : List (Bool × VError) :=
  [((d.lookup "service").isNone || (d.lookup "message").isNone, .missingRequired),
   (!(isStr (d.lookup "service")), .serviceNotString),
   (decide (MAX_SERVICE_LENGTH < optStrLen (d.lookup "service")), .serviceTooLong),
   ((d.lookup "event").isSome && !(isStr (d.lookup "event")), .eventNotString),
   ((d.lookup "event").isSome && decide (MAX_EVENT_LENGTH < optStrLen (d.lookup "event")), .eventTooLong),
   (!(isStr (d.lookup "message")), .messageNotString),
   (decide (MAX_FIELD_LENGTH < optStrLen (d.lookup "message")), .messageTooLong),
   ((d.lookup "error").isSome && !(isBool (d.lookup "error")), .errorNotBool)]

/-- Which of the six numbered rules of the specification each error message
belongs to (rule 1: object; rule 2: required keys; rule 3: service;
rule 4: event; rule 5: message; rule 6: error flag). -/
def ruleIndex : VError → Nat
  | .notObject => 1
  | .missingRequired => 2
  | .serviceNotString => 3
  | .serviceTooLong => 3
  | .eventNotString => 4
  | .eventTooLong => 4
  | .messageNotString => 5
  | .messageTooLong => 5
  | .errorNotBool => 6

/-! ### Telegram notifier (src/hooker.py, send_to_telegram, lines 83-123)

The outcome of each HTTP POST attempt is an oracle `Nat → TgOutcome`
indexed by the loop variable `attempt`.  The source sleeps `2 ** attempt`
seconds only inside the two `except` branches (transport-level
`aiohttp.ClientError` and any other exception), and only when
`attempt < max_retries - 1`; a non-200 HTTP status falls through with no
sleep. -/

inductive TgOutcome where
  | ok            -- response.status == 200
  | httpErr       -- response.status != 200 (no sleep before the next attempt)
  | transportErr  -- aiohttp.ClientError raised (sleep unless final attempt)
  | unexpectedErr -- any other exception raised (sleep unless final attempt)
deriving DecidableEq

/-- Lines 94-96: truncate an over-long message and append the ellipsis. -/
def truncateMessage (message : List Char) : List Char :=
  if MAX_MESSAGE_LENGTH < message.length then
    message.take (MAX_MESSAGE_LENGTH - 3) ++ ['.', '.', '.']
  else message

/-- The retry loop `for attempt in range(max_retries)` over the listed
attempt indices: returns (success, number of attempts made, delays slept,
in order). -/
def sendLoop (outcomes : Nat → TgOutcome) (maxRetries : Nat) : List Nat → Bool × Nat × List ℚ
  | [] => (false, 0, [])
  | a :: rest =>
    match outcomes a with
    | .ok => (true, 1, [])
    | .httpErr =>
      let r := sendLoop outcomes maxRetries rest
      (r.1, r.2.1 + 1, r.2.2)
    | .transportErr =>
      let r := sendLoop outcomes maxRetries rest
      (r.1, r.2.1 + 1, if a < maxRetries - 1 then ((2 : ℚ) ^ a) :: r.2.2 else r.2.2)
    | .unexpectedErr =>
      let r := sendLoop outcomes maxRetries rest
      (r.1, r.2.1 + 1, if a < maxRetries - 1 then ((2 : ℚ) ^ a) :: r.2.2 else r.2.2)

structure SendResult where
  success : Bool
  attempts : Nat
  delays : List ℚ
  sent : List Char
deriving DecidableEq

/-- `send_to_telegram(message, max_retries)`: the returned Bool of the
source plus the observable effects the claims speak about (attempt count,
backoff sleeps, the text handed to the chat API). -/
def send_to_telegram (message : List Char) (outcomes : Nat → TgOutcome)
    (maxRetries : Nat) : SendResult :=
  let m := truncateMessage message
  let r := sendLoop outcomes maxRetries (List.range maxRetries)
  ⟨r.1, r.2.1, r.2.2, m⟩

/-! ### Persistence (src/hooker.py, lines 261-284, and the external store)

The storage engine itself (aiosqlite) is an external collaborator. -/

structure Record where
  service : List Char
  event : List Char
  error : Bool
  message : List Char
  created_at : Int    -- seconds: strftime("%Y-%m-%d %H:%M:%S") of the UTC clock
deriving DecidableEq

/-- Field access `data.get(k)` on a JSON value. -/
def jfield : Json → String → Option Json
  | .obj d, k => d.lookup k
  | _, _ => none

/-- String value with default empty, as in `data.get(k, "")`. -/
def asStr : Option Json → List Char
  | some (.str s) => s
  | _ => []

/-- Boolean value with default `False`, as in `data.get("error", False)`. -/
def asBool : Option Json → Bool
  | some (.bool b) => b
  | _ => false

/-- The row inserted at lines 266-275: the four payload fields plus the
server-side `created_at`.  The payload contributes nothing to
`created_at`. -/
def mkRecord (data : Json) (createdAt : Int) : Record :=
  { service := asStr (jfield data "service")
    event := asStr (jfield data "event")
    error := asBool (jfield data "error")
    message := asStr (jfield data "message")
    created_at := createdAt }

structure DbState where
  rows : List Record
deriving DecidableEq

/-- Modelled from the spec: the storage engine is an external collaborator
("a generic durable key-ordered record store"); the insert appends the row
and, per the spec of `NotificationStore.insert`, assigns and returns the
next monotonically increasing identifier (SQLite AUTOINCREMENT, first id
1).  The source discards the identifier. -/
def dbInsert (db : DbState) (r : Record) : DbState × Nat :=
  (⟨db.rows ++ [r]⟩, db.rows.length + 1)

/-! ### The webhook handler (src/hooker.py, webhook, lines 212-306) -/

/-- Which outer `except` arm an escaped exception would hit:
`aiohttp.ClientError` (line 295) or any other `Exception` (line 301). -/
inductive ExcKind where
  | clientError
  | otherError
deriving DecidableEq

/-- Process-wide inputs of one call: configuration, the two clocks read
during the call (`time.time()` for the rate limiter, `datetime.now(utc)`
for `created_at`), whether the insert raises `aiosqlite.Error`, and the
per-attempt Telegram outcomes. -/
structure WebhookEnv where
  apiKeyConfig : List Char
  now : ℚ
  utcNow : ℚ
  dbOk : Bool
  tgOutcomes : Nat → TgOutcome

/-- One inbound request: the `API-Key` header with the default empty
string of `headers.get` (a missing header and an empty one are
indistinguishable in the source), the parsed body (`none` when
`request.json()` raises), and an injected unexpected fault (`none` in
normal operation); the fault is modelled as raised before any effect. -/
structure WebhookReq where
  apiKeyHeader : List Char
  body : Option Json
  raisedFault : Option ExcKind

inductive ErrBody where
  | rateLimitExceeded     -- "Rate limit exceeded. Please try again later."
  | unauthorized          -- "Unauthorized"
  | invalidJson           -- "Invalid JSON format"
  | validation (e : Option VError)  -- the validator message
  | databaseError         -- "Database error"
  | serviceUnavailable    -- "Service unavailable"
  | internalServerError   -- "Internal Server Error"
deriving DecidableEq

inductive RespBody where
  | successTrue           -- the JSON body with success true
  | err (e : ErrBody)
deriving DecidableEq

structure Response where
  status : Nat
  body : RespBody
deriving DecidableEq

/-- Lines 287-289: the forwarded text, error marker or megaphone marker. -/
def telegramMessage (data : Json) : List Char :=
  (if asBool (jfield data "error") then ['❌'] else ['📢'])
    ++ (' ' :: asStr (jfield data "service"))
    ++ (':' :: ' ' :: asStr (jfield data "message"))

/-- Everything one call observably does: the response and the new states
of the rate-limit store (this client), the database, and whether/what the
notifier was asked to send. -/
structure WebhookResult where
  resp : Response
  rateStore : List ℚ
  db : DbState
  insertAttempted : Bool
  insertedId : Option Nat
  tg : Option SendResult

/-- Direct translation of `webhook` (lines 212-306).  The pipeline order is
the source order: rate check, API-key check (`not api_key or not
compare_digest(api_key, API_KEY)`), body parse, validation, insert,
Telegram send, 200. -/
def webhook (env : WebhookEnv) (store : List ℚ) (db : DbState) (req : WebhookReq) :
    WebhookResult :=
  match req.raisedFault with
  | some .clientError =>
    ⟨⟨503, .err .serviceUnavailable⟩, store, db, false, none, none⟩
  | some .otherError =>
    ⟨⟨500, .err .internalServerError⟩, store, db, false, none, none⟩
  | none =>
    if (check_rate_limit store env.now).1 then
      if req.apiKeyHeader = [] ∨ req.apiKeyHeader ≠ env.apiKeyConfig then
        ⟨⟨401, .err .unauthorized⟩, (check_rate_limit store env.now).2, db, false, none, none⟩
      else
        match req.body with
        | none =>
          ⟨⟨400, .err .invalidJson⟩, (check_rate_limit store env.now).2, db, false, none, none⟩
        | some data =>
          if (validate_notification_data data).1 then
            if env.dbOk then
              ⟨⟨200, .successTrue⟩, (check_rate_limit store env.now).2,
               (dbInsert db (mkRecord data (Int.floor env.utcNow))).1, true,
               some (dbInsert db (mkRecord data (Int.floor env.utcNow))).2,
               some (send_to_telegram (telegramMessage data) env.tgOutcomes 3)⟩
            else
              ⟨⟨500, .err .databaseError⟩, (check_rate_limit store env.now).2, db, true, none, none⟩
          else
            ⟨⟨400, .err (.validation (validate_notification_data data).2)⟩,
             (check_rate_limit store env.now).2, db, false, none, none⟩
    else
      ⟨⟨429, .err .rateLimitExceeded⟩, (check_rate_limit store env.now).2, db, false, none, none⟩

/-! ### Helper lemmas about the notifier loop -/

theorem sendLoop_success_mem (o : Nat → TgOutcome) (m : Nat) :
    ∀ l : List Nat, (sendLoop o m l).1 = true → ∃ a ∈ l, o a = TgOutcome.ok := by
  intro l
  induction l with
  | nil => simp [sendLoop]
  | cons a rest ih =>
    intro h
    cases ho : o a
    · exact ⟨a, List.mem_cons_self a rest, ho⟩
    · simp only [sendLoop, ho] at h
      obtain ⟨b, hb, hob⟩ := ih h
      exact ⟨b, List.mem_cons_of_mem a hb, hob⟩
    · simp only [sendLoop, ho] at h
      obtain ⟨b, hb, hob⟩ := ih h
      exact ⟨b, List.mem_cons_of_mem a hb, hob⟩
    · simp only [sendLoop, ho] at h
      obtain ⟨b, hb, hob⟩ := ih h
      exact ⟨b, List.mem_cons_of_mem a hb, hob⟩

theorem sendLoop_allFail (o : Nat → TgOutcome) (m : Nat) :
    ∀ l : List Nat, (∀ a ∈ l, o a ≠ TgOutcome.ok) →
      (sendLoop o m l).1 = false ∧ (sendLoop o m l).2.1 = l.length := by
  intro l
  induction l with
  | nil => simp [sendLoop]
  | cons a rest ih =>
    intro h
    have ha : o a ≠ TgOutcome.ok := h a (List.mem_cons_self a rest)
    have hrest := ih (fun b hb => h b (List.mem_cons_of_mem a hb))
    cases ho : o a
    · exact absurd ho ha
    · simpa [sendLoop, ho] using hrest
    · simpa [sendLoop, ho] using hrest
    · simpa [sendLoop, ho] using hrest

theorem sendLoop_delays_from_exceptions (o : Nat → TgOutcome) (m : Nat) :
    ∀ l : List Nat, ∀ d ∈ (sendLoop o m l).2.2,
      ∃ a ∈ l, a < m - 1 ∧ (o a = TgOutcome.transportErr ∨ o a = TgOutcome.unexpectedErr) ∧
        d = (2 : ℚ) ^ a := by
  intro l
  induction l with
  | nil => simp [sendLoop]
  | cons a rest ih =>
    intro d hd
    cases ho : o a
    · simp [sendLoop, ho] at hd
    · simp only [sendLoop, ho] at hd
      obtain ⟨b, hb, hlt, hkind, hval⟩ := ih d hd
      exact ⟨b, List.mem_cons_of_mem a hb, hlt, hkind, hval⟩
    · simp only [sendLoop, ho] at hd
      by_cases hlt : a < m - 1
      · rw [if_pos hlt] at hd
        rcases List.mem_cons.mp hd with hda | hd
        · exact ⟨a, List.mem_cons_self a rest, hlt, Or.inl ho, hda⟩
        · obtain ⟨b, hb, hlt2, hkind, hval⟩ := ih d hd
          exact ⟨b, List.mem_cons_of_mem a hb, hlt2, hkind, hval⟩
      · rw [if_neg hlt] at hd
        obtain ⟨b, hb, hlt2, hkind, hval⟩ := ih d hd
        exact ⟨b, List.mem_cons_of_mem a hb, hlt2, hkind, hval⟩
    · simp only [sendLoop, ho] at hd
      by_cases hlt : a < m - 1
      · rw [if_pos hlt] at hd
        rcases List.mem_cons.mp hd with hda | hd
        · exact ⟨a, List.mem_cons_self a rest, hlt, Or.inr ho, hda⟩
        · obtain ⟨b, hb, hlt2, hkind, hval⟩ := ih d hd
          exact ⟨b, List.mem_cons_of_mem a hb, hlt2, hkind, hval⟩
      · rw [if_neg hlt] at hd
        obtain ⟨b, hb, hlt2, hkind, hval⟩ := ih d hd
        exact ⟨b, List.mem_cons_of_mem a hb, hlt2, hkind, hval⟩

theorem sendLoop_no_delay_without_exception (o : Nat → TgOutcome) (m : Nat) :
    ∀ l : List Nat, (∀ a ∈ l, o a = TgOutcome.ok ∨ o a = TgOutcome.httpErr) →
      (sendLoop o m l).2.2 = [] := by
  intro l
  induction l with
  | nil => simp [sendLoop]
  | cons a rest ih =>
    intro h
    have hrest := ih (fun b hb => h b (List.mem_cons_of_mem a hb))
    rcases h a (List.mem_cons_self a rest) with ho | ho
    · simp [sendLoop, ho]
    · simp [sendLoop, ho, hrest]

/-! ### C5: validator rule order -/

/-- C5: the validator is the first-failing rule of the ordered rule list
(first failure wins, checks in the spec order 1-6 as `ruleIndex` shows),
identifies the failed rule in its message, and rejects the two concrete
payloads of the spec with the service-length message and the
missing-required-fields message respectively.  Being a pure function of
the payload, it has no side effects. -/
theorem C5_validator_first_failure :
    (∀ data : Json, validate_notification_data data =
        (match data with
         | .obj d => firstFailure (specRules d)
         | _ => (false, some VError.notObject))) ∧
    (∀ d : List (String × Json),
        List.Chain' (fun a b => a ≤ b) ((specRules d).map (fun p => ruleIndex p.2))) ∧
    validate_notification_data
        (.obj [("service", .str (List.replicate 101 'x')), ("message", .str ['o', 'k'])])
      = (false, some VError.serviceTooLong) ∧
    validate_notification_data (.obj [("message", .str ['o', 'k'])])
      = (false, some VError.missingRequired) := by
  refine ⟨fun data => ?_, fun d => ?_, ?_, ?_⟩
  · cases data <;> rfl
  · simp only [specRules, List.map, ruleIndex]
    norm_num [List.chain'_cons, List.chain'_singleton]
  · rfl
  · rfl

/-! ### C7: message truncation -/

/-- C7: a message longer than `MAX_MESSAGE_LENGTH` is delivered as its
first `MAX_MESSAGE_LENGTH - 3` characters followed by the three-dot
ellipsis marker, hence with total length exactly `MAX_MESSAGE_LENGTH` and
ending in the marker; a 5000-character message is the witness instance. -/
theorem C7_truncation (msg : List Char) (o : Nat → TgOutcome) (m : Nat)
    (h : MAX_MESSAGE_LENGTH < msg.length) :
    (send_to_telegram msg o m).sent
        = msg.take (MAX_MESSAGE_LENGTH - 3) ++ ['.', '.', '.'] ∧
    (send_to_telegram msg o m).sent.length = MAX_MESSAGE_LENGTH ∧
    (send_to_telegram msg o m).sent.drop (MAX_MESSAGE_LENGTH - 3) = ['.', '.', '.'] := by
  have hs : (send_to_telegram msg o m).sent
      = msg.take (MAX_MESSAGE_LENGTH - 3) ++ ['.', '.', '.'] := by
    simp [send_to_telegram, truncateMessage, h]
  have htk : (msg.take (MAX_MESSAGE_LENGTH - 3)).length = MAX_MESSAGE_LENGTH - 3 := by
    rw [List.length_take]
    have : MAX_MESSAGE_LENGTH - 3 ≤ msg.length := le_of_lt (lt_of_le_of_lt (by omega) h)
    omega
  refine ⟨hs, ?_, ?_⟩
  · rw [hs, List.length_append, htk]
    rfl
  · have hdl := List.drop_left (msg.take (MAX_MESSAGE_LENGTH - 3)) ['.', '.', '.']
    rw [htk] at hdl
    rw [hs, hdl]

/-- Witness for C7 at the concrete 5000-character message of the spec. -/
theorem C7_truncation_witness :
    MAX_MESSAGE_LENGTH < (List.replicate 5000 'a').length ∧
    (send_to_telegram (List.replicate 5000 'a') (fun _ => TgOutcome.ok) 3).sent.length
      = MAX_MESSAGE_LENGTH := by
  have h : MAX_MESSAGE_LENGTH < (List.replicate 5000 'a').length := by
    rw [List.length_replicate]; norm_num [MAX_MESSAGE_LENGTH]
  exact ⟨h, (C7_truncation (List.replicate 5000 'a') (fun _ => TgOutcome.ok) 3 h).2.1⟩

/-! ### C6: retry/backoff -/

/-- First two attempts fail with a non-success HTTP status, third succeeds. -/
def c6HttpOutcomes : Nat → TgOutcome := fun i => if i < 2 then .httpErr else .ok

/-- C6 counterexample: a run whose first two attempts fail (with a
non-success HTTP status, one of the two failure kinds the claim covers)
and whose third succeeds returns true after exactly 3 attempts but sleeps
no backoff delay at all: the source only sleeps in its two exception
handlers, so the claimed delays of 1s then 2s do not occur. -/
theorem C6_backoff_counterexample :
    (send_to_telegram [] c6HttpOutcomes 3).success = true ∧
    (send_to_telegram [] c6HttpOutcomes 3).attempts = 3 ∧
    (send_to_telegram [] c6HttpOutcomes 3).delays = [] ∧
    ([] : List ℚ) ≠ [(1 : ℚ), 2] := by
  refine ⟨rfl, rfl, rfl, by simp⟩

/-- C6 as amended: the exponential backoff delay `2 ^ attempt` seconds is
slept only after a transport-level failure or an unexpected exception that
is not the final attempt; after a non-success HTTP status the next attempt
follows immediately with no delay; and a run whose first two attempts fail
at transport level and whose third succeeds returns true after exactly 3
attempts with delays 1s then 2s. -/
theorem C6_backoff_amended (o : Nat → TgOutcome) (m : Nat) (msg : List Char) :
    (∀ d ∈ (send_to_telegram msg o m).delays,
        ∃ a, a < m - 1 ∧ (o a = TgOutcome.transportErr ∨ o a = TgOutcome.unexpectedErr) ∧
          d = (2 : ℚ) ^ a) ∧
    ((∀ i < m, o i = TgOutcome.ok ∨ o i = TgOutcome.httpErr) →
        (send_to_telegram msg o m).delays = []) ∧
    (o 0 = TgOutcome.transportErr → o 1 = TgOutcome.transportErr → o 2 = TgOutcome.ok →
        (send_to_telegram msg o 3).success = true ∧
        (send_to_telegram msg o 3).attempts = 3 ∧
        (send_to_telegram msg o 3).delays = [(1 : ℚ), 2]) := by
  refine ⟨?_, ?_, ?_⟩
  · intro d hd
    have hd' : d ∈ (sendLoop o m (List.range m)).2.2 := hd
    obtain ⟨a, _, hlt, hkind, hval⟩ := sendLoop_delays_from_exceptions o m (List.range m) d hd'
    exact ⟨a, hlt, hkind, hval⟩
  · intro h
    have hres := sendLoop_no_delay_without_exception o m (List.range m)
      (fun a ha => h a (List.mem_range.mp ha))
    exact hres
  · intro h0 h1 h2
    have hr : List.range 3 = [0, 1, 2] := rfl
    refine ⟨?_, ?_, ?_⟩ <;>
      simp [send_to_telegram, sendLoop, hr, h0, h1, h2]

/-- Transport-level failures on the first two attempts, success on the third. -/
def c6TransportOutcomes : Nat → TgOutcome := fun i => if i < 2 then .transportErr else .ok

/-- Witness for C6 as amended, at the spec scenario. -/
theorem C6_backoff_amended_witness :
    (send_to_telegram [] c6TransportOutcomes 3).success = true ∧
    (send_to_telegram [] c6TransportOutcomes 3).attempts = 3 ∧
    (send_to_telegram [] c6TransportOutcomes 3).delays = [(1 : ℚ), 2] :=
  (C6_backoff_amended c6TransportOutcomes 3 []).2.2 rfl rfl rfl

/-! ### C2: valid authorized request persists once and answers 200 -/

def c2xPayload : Json := .obj [("service", .str ['s']), ("message", .str ['m'])]

def c2xEnv : WebhookEnv := ⟨['k'], 0, 0, true, fun _ => .ok⟩

def c2xEnvDbFail : WebhookEnv := ⟨['k'], 0, 0, false, fun _ => .ok⟩

def c2xReq : WebhookReq := ⟨['k'], some c2xPayload, none⟩

def c2xStore : List ℚ := List.replicate 10 0

/-- C2 counterexample: the claim does not hold of every request with the
correct API key and a valid body.  A request from a client whose window
quota is exhausted is answered 429 with no record persisted (the rate
gate runs before everything else), and a request whose insert fails is
answered 500 with no record persisted — in neither case the claimed
single record and 200. -/
theorem C2_persist_counterexample :
    c2xReq.apiKeyHeader = c2xEnv.apiKeyConfig ∧
    (validate_notification_data c2xPayload).1 = true ∧
    (webhook c2xEnv c2xStore ⟨[]⟩ c2xReq).resp.status = 429 ∧
    (webhook c2xEnv c2xStore ⟨[]⟩ c2xReq).db = ⟨[]⟩ ∧
    c2xReq.apiKeyHeader = c2xEnvDbFail.apiKeyConfig ∧
    (webhook c2xEnvDbFail [] ⟨[]⟩ c2xReq).resp.status = 500 ∧
    (webhook c2xEnvDbFail [] ⟨[]⟩ c2xReq).db = ⟨[]⟩ := by
  have h1 : prune c2xStore c2xEnv.now = c2xStore := by
    apply List.filter_eq_self.mpr
    intro t ht
    rw [List.eq_of_mem_replicate ht, decide_eq_true_eq]
    norm_num [RATE_LIMIT_WINDOW, c2xEnv]
  have hlen : RATE_LIMIT_REQUESTS ≤ c2xStore.length := by
    simp [c2xStore, RATE_LIMIT_REQUESTS]
  have h2 : (check_rate_limit c2xStore c2xEnv.now).1 = false := by
    simp only [check_rate_limit, h1]
    rw [if_pos hlen]
  have hw : webhook c2xEnv c2xStore ⟨[]⟩ c2xReq =
      ⟨⟨429, .err .rateLimitExceeded⟩, (check_rate_limit c2xStore c2xEnv.now).2,
       ⟨[]⟩, false, none, none⟩ := by
    simp only [webhook, c2xReq, h2, Bool.false_eq_true, if_false]
  exact ⟨rfl, rfl, by rw [hw], by rw [hw], rfl, rfl, rfl⟩

/-- C2 as amended: with the rate check passed, a correct API key, a
parseable body that passes validation, and a successful insert, the
handler persists exactly one record and answers 200 success, whatever
the Telegram outcomes are (the environment, and with it the per-attempt
outcome oracle, is arbitrary); and the notifier returns true only when
some attempt got the success status, and returns false, without raising,
after exhausting its `max_retries` attempts when none does. -/
theorem C2_persist_and_respond (env : WebhookEnv) (store : List ℚ) (db : DbState)
    (req : WebhookReq) (data : Json)
    (hfault : req.raisedFault = none)
    (hrate : (check_rate_limit store env.now).1 = true)
    (hkey : req.apiKeyHeader = env.apiKeyConfig)
    (hkeyNonempty : env.apiKeyConfig ≠ [])
    (hbody : req.body = some data)
    (hvalid : (validate_notification_data data).1 = true)
    (hdb : env.dbOk = true) :
    (webhook env store db req).resp = ⟨200, RespBody.successTrue⟩ ∧
    (webhook env store db req).db.rows.length = db.rows.length + 1 ∧
    (∀ (o : Nat → TgOutcome) (m : Nat) (msg : List Char),
        ((send_to_telegram msg o m).success = true → ∃ i < m, o i = TgOutcome.ok) ∧
        ((∀ i < m, o i ≠ TgOutcome.ok) →
            (send_to_telegram msg o m).success = false ∧
            (send_to_telegram msg o m).attempts = m)) := by
  have hw : webhook env store db req =
      ⟨⟨200, .successTrue⟩, (check_rate_limit store env.now).2,
       (dbInsert db (mkRecord data (Int.floor env.utcNow))).1, true,
       some (dbInsert db (mkRecord data (Int.floor env.utcNow))).2,
       some (send_to_telegram (telegramMessage data) env.tgOutcomes 3)⟩ := by
    simp only [webhook, hfault, hrate, hkey, hbody, hvalid, hdb, if_true]
    rw [if_neg]
    simp [hkeyNonempty]
  refine ⟨by rw [hw], by rw [hw]; simp [dbInsert], fun o m msg => ⟨?_, ?_⟩⟩
  · intro hsucc
    have hsucc' : (sendLoop o m (List.range m)).1 = true := hsucc
    obtain ⟨a, ha, hoa⟩ := sendLoop_success_mem o m (List.range m) hsucc'
    exact ⟨a, List.mem_range.mp ha, hoa⟩
  · intro hall
    have h2 := sendLoop_allFail o m (List.range m)
      (fun a ha => hall a (List.mem_range.mp ha))
    refine ⟨h2.1, ?_⟩
    have h3 : (sendLoop o m (List.range m)).2.1 = (List.range m).length := h2.2
    rw [List.length_range] at h3
    exact h3

def c2Payload : Json := .obj [("service", .str ['s']), ("message", .str ['m'])]

def c2Env : WebhookEnv := ⟨['k'], 0, 0, true, fun _ => .ok⟩

def c2Req : WebhookReq := ⟨['k'], some c2Payload, none⟩

/-- Witness for C2 at a concrete authorized, valid request. -/
theorem C2_persist_and_respond_witness :
    (webhook c2Env [] ⟨[]⟩ c2Req).resp = ⟨200, RespBody.successTrue⟩ ∧
    (webhook c2Env [] ⟨[]⟩ c2Req).db.rows.length = 1 := by
  have h := C2_persist_and_respond c2Env [] ⟨[]⟩ c2Req c2Payload rfl rfl rfl
    (by decide) rfl rfl rfl
  exact ⟨h.1, h.2.1⟩

/-! ### C3: persistence strictly precedes notification -/

/-- C3: a Telegram send is attempted only when the insert was attempted
and succeeded (so persistence strictly precedes notification on every
path); and on a validated request whose insert fails, the handler answers
500 with the database-error body, attempts no send, and leaves the
database unchanged. -/
theorem C3_persist_before_notify (env : WebhookEnv) (store : List ℚ) (db : DbState)
    (req : WebhookReq) :
    ((webhook env store db req).tg.isSome →
        (webhook env store db req).insertAttempted = true ∧ env.dbOk = true) ∧
    (∀ data : Json, req.raisedFault = none →
        (check_rate_limit store env.now).1 = true →
        req.apiKeyHeader = env.apiKeyConfig → env.apiKeyConfig ≠ [] →
        req.body = some data →
        (validate_notification_data data).1 = true →
        env.dbOk = false →
        (webhook env store db req).resp = ⟨500, RespBody.err ErrBody.databaseError⟩ ∧
        (webhook env store db req).tg = none ∧
        (webhook env store db req).db = db ∧
        (webhook env store db req).insertAttempted = true) := by
  constructor
  · rcases req with ⟨key, body, fault⟩
    cases fault with
    | some k => cases k <;> simp [webhook]
    | none =>
      simp only [webhook]
      split
      · split
        · simp
        · split
          · simp
          · split
            · split
              · next hdb => intro _; exact ⟨rfl, hdb⟩
              · simp
            · simp
      · simp
  · intro data hfault hrate hkey hne hbody hvalid hdbf
    have hw : webhook env store db req =
        ⟨⟨500, .err .databaseError⟩, (check_rate_limit store env.now).2,
         db, true, none, none⟩ := by
      simp only [webhook, hfault, hrate, hkey, hbody, hvalid, hdbf, if_true,
        Bool.false_eq_true, if_false]
      rw [if_neg]
      simp [hne]
    rw [hw]
    exact ⟨rfl, rfl, rfl, rfl⟩

def c3Payload : Json := .obj [("service", .str ['s']), ("message", .str ['m'])]

def c3Env : WebhookEnv := ⟨['k'], 0, 0, false, fun _ => .ok⟩

def c3Req : WebhookReq := ⟨['k'], some c3Payload, none⟩

/-- Witness for C3 at a concrete validated request whose insert fails. -/
theorem C3_persist_before_notify_witness :
    (webhook c3Env [] ⟨[]⟩ c3Req).resp = ⟨500, RespBody.err ErrBody.databaseError⟩ ∧
    (webhook c3Env [] ⟨[]⟩ c3Req).tg = none := by
  have h := (C3_persist_before_notify c3Env [] ⟨[]⟩ c3Req).2 c3Payload rfl rfl rfl
    (by decide) rfl rfl rfl
  exact ⟨h.1, h.2.1⟩

/-! ### C4: missing or wrong API key -/

def c4Env : WebhookEnv := ⟨['k'], 0, 0, true, fun _ => .ok⟩

def c4Req : WebhookReq := ⟨['w'], none, none⟩

def c4Store : List ℚ := List.replicate 10 0

/-- C4 counterexample: a request whose API-Key does not match the secret
but whose client already spent its window quota is answered 429, not 401:
the rate gate runs before authentication, so the claimed response does not
hold for every request with a bad key. -/
theorem C4_unauthorized_counterexample :
    c4Req.apiKeyHeader ≠ c4Env.apiKeyConfig ∧
    (webhook c4Env c4Store ⟨[]⟩ c4Req).resp.status = 429 ∧
    (429 : Nat) ≠ 401 := by
  have h1 : prune c4Store c4Env.now = c4Store := by
    apply List.filter_eq_self.mpr
    intro t ht
    rw [List.eq_of_mem_replicate ht, decide_eq_true_eq]
    norm_num [RATE_LIMIT_WINDOW, c4Env]
  have hlen : RATE_LIMIT_REQUESTS ≤ c4Store.length := by
    simp [c4Store, RATE_LIMIT_REQUESTS]
  have h2 : (check_rate_limit c4Store c4Env.now).1 = false := by
    simp only [check_rate_limit, h1]
    rw [if_pos hlen]
  have hw : (webhook c4Env c4Store ⟨[]⟩ c4Req).resp.status = 429 := by
    simp only [webhook, c4Req, h2, Bool.false_eq_true, if_false]
  exact ⟨by decide, hw, by decide⟩

/-- C4 as amended: a request with a missing (empty) or mismatching API-Key
never persists a record and never triggers an outbound send; it is
answered 401 Unauthorized when it passes the rate gate, and 429 when the
rate gate rejects it first. -/
theorem C4_unauthorized_amended (env : WebhookEnv) (store : List ℚ) (db : DbState)
    (req : WebhookReq)
    (hfault : req.raisedFault = none)
    (hbad : req.apiKeyHeader = [] ∨ req.apiKeyHeader ≠ env.apiKeyConfig) :
    (webhook env store db req).db = db ∧
    (webhook env store db req).insertAttempted = false ∧
    (webhook env store db req).tg = none ∧
    ((check_rate_limit store env.now).1 = true →
        (webhook env store db req).resp = ⟨401, RespBody.err ErrBody.unauthorized⟩) ∧
    ((check_rate_limit store env.now).1 = false →
        (webhook env store db req).resp = ⟨429, RespBody.err ErrBody.rateLimitExceeded⟩) := by
  cases hr : (check_rate_limit store env.now).1 with
  | false =>
    have hw : webhook env store db req =
        ⟨⟨429, .err .rateLimitExceeded⟩, (check_rate_limit store env.now).2,
         db, false, none, none⟩ := by
      simp only [webhook, hfault, hr, Bool.false_eq_true, if_false]
    rw [hw]
    exact ⟨rfl, rfl, rfl, fun h => absurd h (by simp), fun _ => rfl⟩
  | true =>
    have hw : webhook env store db req =
        ⟨⟨401, .err .unauthorized⟩, (check_rate_limit store env.now).2,
         db, false, none, none⟩ := by
      simp only [webhook, hfault, hr, if_true]
      rw [if_pos hbad]
    rw [hw]
    exact ⟨rfl, rfl, rfl, fun _ => rfl, fun h => absurd h (by simp)⟩

/-- Witness for C4 as amended: same wrong key against a client with spare
quota, answered 401 with no persistence and no send. -/
theorem C4_unauthorized_amended_witness :
    (webhook c4Env [] ⟨[]⟩ c4Req).resp = ⟨401, RespBody.err ErrBody.unauthorized⟩ ∧
    (webhook c4Env [] ⟨[]⟩ c4Req).db = ⟨[]⟩ ∧
    (webhook c4Env [] ⟨[]⟩ c4Req).tg = none := by
  have h := C4_unauthorized_amended c4Env [] ⟨[]⟩ c4Req rfl (Or.inr (by decide))
  exact ⟨h.2.2.2.1 rfl, h.1, h.2.2.1⟩

/-! ### C8: the outer exception handler -/

def c8Env : WebhookEnv := ⟨['k'], 0, 0, true, fun _ => .ok⟩

def c8Req : WebhookReq := ⟨['k'], none, some .clientError⟩

/-- C8 counterexample: an internal fault of the HTTP-client-error kind is
not handled by any earlier gate, yet is reported as 503 with the
service-unavailable body, not as the claimed generic 500. -/
theorem C8_catchall_counterexample :
    c8Req.raisedFault.isSome = true ∧
    (webhook c8Env [] ⟨[]⟩ c8Req).resp = ⟨503, RespBody.err ErrBody.serviceUnavailable⟩ ∧
    (503 : Nat) ≠ 500 := by
  exact ⟨rfl, rfl, by decide⟩

/-- C8 as amended: the handler never lets an exception propagate — every
call returns one of the six typed statuses — and an unexpected internal
fault is caught and mapped to 503 service-unavailable when it is an HTTP
client error, and to the generic 500 internal-server-error otherwise,
with details logged server-side only. -/
theorem C8_catchall_amended (env : WebhookEnv) (store : List ℚ) (db : DbState)
    (req : WebhookReq) :
    (req.raisedFault = some ExcKind.otherError →
        (webhook env store db req).resp = ⟨500, RespBody.err ErrBody.internalServerError⟩) ∧
    (req.raisedFault = some ExcKind.clientError →
        (webhook env store db req).resp = ⟨503, RespBody.err ErrBody.serviceUnavailable⟩) ∧
    (webhook env store db req).resp.status ∈ ([200, 400, 401, 429, 500, 503] : List Nat) := by
  rcases req with ⟨key, body, fault⟩
  cases fault with
  | some k => cases k <;> simp [webhook]
  | none =>
    refine ⟨by intro h; exact absurd h (by simp), by intro h; exact absurd h (by simp), ?_⟩
    simp only [webhook]
    split
    · split
      · simp
      · split
        · simp
        · split
          · split
            · simp
            · simp
          · simp
    · simp

def c8ReqOther : WebhookReq := ⟨['k'], none, some .otherError⟩

/-- Witness for C8 as amended at a fault of the generic kind. -/
theorem C8_catchall_amended_witness :
    (webhook c8Env [] ⟨[]⟩ c8ReqOther).resp
      = ⟨500, RespBody.err ErrBody.internalServerError⟩ :=
  (C8_catchall_amended c8Env [] ⟨[]⟩ c8ReqOther).1 rfl

/-! ### C9: server-side created_at, store-assigned identifier -/

/-- C9: on the success path the one persisted record carries
`created_at` equal to the UTC server clock truncated to seconds, the
record built from a payload carries exactly the server-supplied instant
whatever the payload contains (any client-supplied timestamp field is
ignored), and the insert returns the store-assigned identifier, the next
one in insertion order. -/
theorem C9_created_at_server_side (env : WebhookEnv) (store : List ℚ) (db : DbState)
    (req : WebhookReq) (data : Json)
    (hfault : req.raisedFault = none)
    (hrate : (check_rate_limit store env.now).1 = true)
    (hkey : req.apiKeyHeader = env.apiKeyConfig)
    (hkeyNonempty : env.apiKeyConfig ≠ [])
    (hbody : req.body = some data)
    (hvalid : (validate_notification_data data).1 = true)
    (hdb : env.dbOk = true) :
    (webhook env store db req).db.rows
        = db.rows ++ [mkRecord data (Int.floor env.utcNow)] ∧
    (mkRecord data (Int.floor env.utcNow)).created_at = Int.floor env.utcNow ∧
    (∀ (payload : Json) (t : Int), (mkRecord payload t).created_at = t) ∧
    (webhook env store db req).insertedId = some (db.rows.length + 1) := by
  have hw : webhook env store db req =
      ⟨⟨200, .successTrue⟩, (check_rate_limit store env.now).2,
       (dbInsert db (mkRecord data (Int.floor env.utcNow))).1, true,
       some (dbInsert db (mkRecord data (Int.floor env.utcNow))).2,
       some (send_to_telegram (telegramMessage data) env.tgOutcomes 3)⟩ := by
    simp only [webhook, hfault, hrate, hkey, hbody, hvalid, hdb, if_true]
    rw [if_neg]
    simp [hkeyNonempty]
  rw [hw]
  exact ⟨rfl, rfl, fun payload t => rfl, rfl⟩

def c9Payload : Json :=
  .obj [("service", .str ['s']), ("message", .str ['m']),
        ("created_at", .str ['1', '9', '7', '0'])]

def c9Env : WebhookEnv := ⟨['k'], 0, 7, true, fun _ => .ok⟩

def c9Req : WebhookReq := ⟨['k'], some c9Payload, none⟩

/-- Witness for C9: a payload that even carries its own "created_at"
field is persisted with the server clock (7 seconds, floored) and the
first store-assigned identifier. -/
theorem C9_created_at_server_side_witness :
    (webhook c9Env [] ⟨[]⟩ c9Req).db.rows
        = [mkRecord c9Payload (Int.floor (7 : ℚ))] ∧
    (mkRecord c9Payload (Int.floor (7 : ℚ))).created_at = Int.floor (7 : ℚ) ∧
    (webhook c9Env [] ⟨[]⟩ c9Req).insertedId = some 1 := by
  have h := C9_created_at_server_side c9Env [] ⟨[]⟩ c9Req c9Payload rfl rfl rfl
    (by decide) rfl rfl rfl
  exact ⟨h.1, h.2.1, h.2.2.2⟩

/-! ### C10: the rate gate runs first and consumes quota -/

/-- C10: in normal operation the per-client store after any call is the
pruned store plus the current instant whenever the rate check passed —
whatever the request carried and however it was answered afterwards (401,
400, 500, 200 …) — and is the pruned store, with no instant appended,
exactly when the rate check itself rejected; pruning removes only
instants that have left the window. -/
theorem C10_rate_quota_first (env : WebhookEnv) (store : List ℚ) (db : DbState)
    (req : WebhookReq) (hfault : req.raisedFault = none) :
    ((check_rate_limit store env.now).1 = true →
        (webhook env store db req).rateStore = prune store env.now ++ [env.now]) ∧
    ((check_rate_limit store env.now).1 = false →
        (webhook env store db req).rateStore = prune store env.now ∧
        (webhook env store db req).resp = ⟨429, RespBody.err ErrBody.rateLimitExceeded⟩) ∧
    (∀ t ∈ prune store env.now, t ∈ store ∧ env.now - t < RATE_LIMIT_WINDOW) := by
  have hrs : (webhook env store db req).rateStore = (check_rate_limit store env.now).2 := by
    simp only [webhook, hfault]
    split
    · split
      · rfl
      · split
        · rfl
        · split
          · split
            · rfl
            · rfl
          · rfl
    · rfl
  refine ⟨?_, ?_, ?_⟩
  · intro h
    rw [hrs]
    simp only [check_rate_limit] at h ⊢
    rw [if_neg]
    intro hc
    rw [if_pos hc] at h
    exact absurd h (by simp)
  · intro h
    constructor
    · rw [hrs]
      simp only [check_rate_limit] at h ⊢
      rw [if_pos]
      by_contra hc
      rw [if_neg hc] at h
      exact absurd h (by simp)
    · have h429 : webhook env store db req =
          ⟨⟨429, .err .rateLimitExceeded⟩, (check_rate_limit store env.now).2,
           db, false, none, none⟩ := by
        simp only [webhook, hfault, h, Bool.false_eq_true, if_false]
      rw [h429]
  · intro t ht
    rw [prune, List.mem_filter] at ht
    exact ⟨ht.1, of_decide_eq_true ht.2⟩

def c10Env : WebhookEnv := ⟨['k'], 0, 0, true, fun _ => .ok⟩

def c10Req : WebhookReq := ⟨['w'], none, none⟩

/-- Witness for C10: a request with a wrong API key is answered 401 yet
still consumes one unit of its client quota. -/
theorem C10_rate_quota_first_witness :
    (webhook c10Env [] ⟨[]⟩ c10Req).rateStore = prune [] (0 : ℚ) ++ [(0 : ℚ)] ∧
    (webhook c10Env [] ⟨[]⟩ c10Req).resp.status = 401 := by
  have h := (C10_rate_quota_first c10Env [] ⟨[]⟩ c10Req rfl).1 rfl
  exact ⟨h, rfl⟩

/-! ### C1: sliding-window admission -/

theorem prune_of_window (store : List ℚ) (now lo : ℚ)
    (hstore : ∀ t ∈ store, lo ≤ t ∧ t < lo + RATE_LIMIT_WINDOW)
    (hlo : lo ≤ now) (hhi : now < lo + RATE_LIMIT_WINDOW) :
    prune store now = store := by
  apply List.filter_eq_self.mpr
  intro t ht
  rw [decide_eq_true_eq]
  have h1 := (hstore t ht).1
  linarith

theorem check_rate_limit_admits (store : List ℚ) (now : ℚ)
    (h : (prune store now).length < RATE_LIMIT_REQUESTS) :
    check_rate_limit store now = (true, prune store now ++ [now]) := by
  simp only [check_rate_limit]
  rw [if_neg (by omega)]

theorem runRateLimiter_admits_all (lo : ℚ) :
    ∀ (ts store : List ℚ),
      (∀ t ∈ store, lo ≤ t ∧ t < lo + RATE_LIMIT_WINDOW) →
      (∀ t ∈ ts, lo ≤ t ∧ t < lo + RATE_LIMIT_WINDOW) →
      store.length + ts.length ≤ RATE_LIMIT_REQUESTS →
      runRateLimiter store ts = (List.replicate ts.length true, store ++ ts) := by
  intro ts
  induction ts with
  | nil => intro store _ _ _; simp [runRateLimiter]
  | cons t ts ih =>
    intro store hstore hts hlen
    have ht := hts t (List.mem_cons_self t ts)
    have hprune : prune store t = store := prune_of_window store t lo hstore ht.1 ht.2
    rw [List.length_cons] at hlen
    have hcheck : check_rate_limit store t = (true, store ++ [t]) := by
      rw [check_rate_limit_admits store t (by rw [hprune]; omega), hprune]
    have hstep : ∀ x ∈ store ++ [t], lo ≤ x ∧ x < lo + RATE_LIMIT_WINDOW := by
      intro x hx
      rcases List.mem_append.mp hx with hx | hx
      · exact hstore x hx
      · rw [List.mem_singleton.mp hx]; exact ht
    have hrec := ih (store ++ [t]) hstep
      (fun x hx => hts x (List.mem_cons_of_mem t hx))
      (by rw [List.length_append, List.length_singleton]; omega)
    simp only [runRateLimiter, hcheck, hrec, List.length_cons, List.replicate_succ]
    rw [List.append_assoc, List.singleton_append]

/-- C1: each call keeps exactly the in-window instants of the client and
only them; a rejection leaves the pruned sequence without the new instant
and happens exactly when the in-window count has reached
`RATE_LIMIT_REQUESTS`; an admission appends the current instant and
happens exactly when the count is below the limit.  Consequently a client
whose requests all fall inside one `RATE_LIMIT_WINDOW`-second sliding
window is admitted on each of its first `RATE_LIMIT_REQUESTS` requests,
and its next request inside the window is rejected. -/
theorem C1_rate_limiter (ts : List ℚ) (lo : ℚ)
    (hts : ∀ t ∈ ts, lo ≤ t ∧ t < lo + RATE_LIMIT_WINDOW) :
    (∀ (store : List ℚ) (now : ℚ),
        (∀ t ∈ prune store now, t ∈ store ∧ now - t < RATE_LIMIT_WINDOW) ∧
        ((check_rate_limit store now).1 = false →
            (check_rate_limit store now).2 = prune store now ∧
            RATE_LIMIT_REQUESTS ≤ (prune store now).length) ∧
        ((check_rate_limit store now).1 = true →
            (check_rate_limit store now).2 = prune store now ++ [now] ∧
            (prune store now).length < RATE_LIMIT_REQUESTS)) ∧
    (ts.length ≤ RATE_LIMIT_REQUESTS →
        (runRateLimiter [] ts).1 = List.replicate ts.length true) ∧
    (ts.length = RATE_LIMIT_REQUESTS →
        ∀ next, lo ≤ next → next < lo + RATE_LIMIT_WINDOW →
          (check_rate_limit (runRateLimiter [] ts).2 next).1 = false) := by
  refine ⟨fun store now => ⟨?_, ?_, ?_⟩, ?_, ?_⟩
  · intro t ht
    rw [prune, List.mem_filter] at ht
    exact ⟨ht.1, of_decide_eq_true ht.2⟩
  · intro h
    simp only [check_rate_limit] at h ⊢
    by_cases hc : RATE_LIMIT_REQUESTS ≤ (prune store now).length
    · rw [if_pos hc] at h ⊢
      exact ⟨rfl, hc⟩
    · rw [if_neg hc] at h
      exact absurd h (by simp)
  · intro h
    simp only [check_rate_limit] at h ⊢
    by_cases hc : RATE_LIMIT_REQUESTS ≤ (prune store now).length
    · rw [if_pos hc] at h
      exact absurd h (by simp)
    · rw [if_neg hc] at h ⊢
      exact ⟨rfl, by omega⟩
  · intro hlen
    have h := runRateLimiter_admits_all lo ts [] (by simp) hts (by simpa using hlen)
    rw [h]
  · intro hlen next hlo hhi
    have h := runRateLimiter_admits_all lo ts [] (by simp) hts (by simp [hlen])
    rw [h]
    have hprune : prune ([] ++ ts) next = [] ++ ts :=
      prune_of_window ([] ++ ts) next lo (by simpa using hts) hlo hhi
    simp only [check_rate_limit, hprune]
    rw [if_pos (by simp [hlen])]

/-- Witness for C1: ten requests at instant 0 are all admitted and the
eleventh request at instant 0 is rejected. -/
theorem C1_rate_limiter_witness :
    (runRateLimiter [] (List.replicate 10 (0 : ℚ))).1 = List.replicate 10 true ∧
    (check_rate_limit (runRateLimiter [] (List.replicate 10 (0 : ℚ))).2 0).1 = false := by
  have hts : ∀ t ∈ List.replicate 10 (0 : ℚ), (0 : ℚ) ≤ t ∧ t < 0 + RATE_LIMIT_WINDOW := by
    intro t ht
    rw [List.eq_of_mem_replicate ht]
    norm_num [RATE_LIMIT_WINDOW]
  have h := C1_rate_limiter (List.replicate 10 (0 : ℚ)) 0 hts
  refine ⟨?_, ?_⟩
  · have := h.2.1 (by simp [RATE_LIMIT_REQUESTS])
    simpa using this
  · exact h.2.2 (by simp [RATE_LIMIT_REQUESTS]) 0 le_rfl
      (by norm_num [RATE_LIMIT_WINDOW])

end Hooker
